import Mathlib

/-!
Shallow embedding of `src/web/browser-window/app/_options/account-edit.component.ts`
(ElectronMail `AccountEditComponent`), and verification of the specification's
claims about it.

Modelling conventions:
* A JavaScript value that is either a string or `null`/`undefined` is an
  `Option String` (`none` = nullish, `some s` = the string, `some ""` included).
  Its JS truthiness is `jsTruthyStr`.
* A checkbox-like control value is an `Option Bool`; `Boolean(v)` is `jsBool`.
* The external utility `validateLoginDelaySecondsRange` (imported from
  `src/shared/util`, outside this file) is kept abstract: the component code is
  embedded parametrically over any function `String → ValidationResult`, where
  `ValidationResult.ok` models the parsed-range return value and
  `ValidationResult.error` models the `{validationError}` return value that the
  component detects via the `"validationError" in validated` test.
* A thrown `Error` is `Except.error` carrying the message; `store.dispatch`
  calls are collected as an explicit list of actions.
-/

/-- Type `Required<AccountConfig>["loginDelaySecondsRange"]`: a numeric start/end pair. -/
structure LoginDelaySecondsRange where
  start : Nat
  «end» : Nat
deriving DecidableEq, Repr

/-- Result of the external `validateLoginDelaySecondsRange` utility: either the
parsed range object or an object carrying a `validationError` message. -/
inductive ValidationResult where
  | ok (range : LoginDelaySecondsRange)
  | error (validationError : String)
deriving DecidableEq, Repr

/-- Type `AccountConfig["credentials"]`: password, two-factor code, mail password. -/
structure AccountCredentials where
  password : Option String
  twoFactorCode : Option String
  mailPassword : Option String
deriving DecidableEq, Repr

/-- Type `AccountConfig["proxy"]`: the pair of proxy rule strings. -/
structure AccountProxy where
  proxyRules : Option String
  proxyBypassRules : Option String
deriving DecidableEq, Repr

/-- Type `AccountConfig` (the fields this component reads and writes). -/
structure AccountConfig where
  login : String
  title : Option String
  database : Option Bool
  persistentSession : Option Bool
  rotateUserAgent : Option Bool
  entryUrl : Option String
  proxy : Option AccountProxy
  credentials : AccountCredentials
  loginDelayUntilSelected : Option Bool
  loginDelaySecondsRange : Option LoginDelaySecondsRange
deriving DecidableEq, Repr

/-- The values currently held by the component's form controls (the `controls`
record of `AccountEditComponent`); all controls start out with value `null`. -/
structure Controls where
  login : Option String
  title : Option String
  database : Option Bool
  persistentSession : Option Bool
  rotateUserAgent : Option Bool
  entryUrl : Option String
  proxyRules : Option String
  proxyBypassRules : Option String
  password : Option String
  twoFactorCode : Option String
  mailPassword : Option String
  loginDelayUntilSelected : Option Bool
  loginDelaySecondsRange : Option String
deriving DecidableEq, Repr

/-- Mutable component state: the control values, whether the `login` control is
still attached to the `form` group, and the loaded account (`this.account`). -/
structure ComponentState where
  controls : Controls
  formHasLogin : Bool
  account : Option AccountConfig
deriving DecidableEq, Repr

/-- Component state right after construction: every control value is `null`
(`new FormControl(null, ...)`), the `login` control belongs to the form group,
and no account is loaded. -/
def initialComponentState : ComponentState :=
  { controls :=
      { login := none, title := none, database := none, persistentSession := none
        rotateUserAgent := none, entryUrl := none, proxyRules := none
        proxyBypassRules := none, password := none, twoFactorCode := none
        mailPassword := none, loginDelayUntilSelected := none
        loginDelaySecondsRange := none }
    formHasLogin := true
    account := none }

/-- Type `AccountConfigCreateUpdatePatch` as assembled by `submit()`; `proxy = none`
means the `proxy` key is absent from the patch object. -/
structure AccountConfigCreateUpdatePatch where
  login : Option String
  title : Option String
  entryUrl : Option String
  database : Bool
  persistentSession : Bool
  rotateUserAgent : Bool
  credentials : AccountCredentials
  proxy : Option AccountProxy
  loginDelayUntilSelected : Bool
  loginDelaySecondsRange : Option LoginDelaySecondsRange
deriving DecidableEq, Repr

/-- The `OPTIONS_ACTIONS` variants this component dispatches. -/
inductive OptionsAction where
  | AddAccountRequest (patch : AccountConfigCreateUpdatePatch)
  | UpdateAccountRequest (patch : AccountConfigCreateUpdatePatch)
  | RemoveAccountRequest (account : AccountConfig)
deriving DecidableEq, Repr

/-- JS truthiness of a string-or-nullish value: `null`, `undefined` and `""`
are falsy, every other string is truthy. -/
def jsTruthyStr : Option String → Bool
  | none => false
  | some s => s ≠ ""

/-- Coercion `Boolean(v)` on a boolean-or-nullish control value. -/
def jsBool : Option Bool → Bool
  | none => false
  | some b => b

/-- The characters removed by `String.prototype.trim` (ASCII whitespace plus
NBSP and the BOM). -/
def isJsWhitespace (c : Char) : Bool :=
  c = ' ' || c = '\t' || c = '\n' || c = '\r' || c = '\x0b' || c = '\x0c'
    || c = '\u00A0' || c = '\uFEFF'

/-- Model of `String.prototype.trim`: strip leading and trailing whitespace. -/
def jsTrim (s : String) : String :=
  String.mk (((s.toList.dropWhile isJsWhitespace).reverse.dropWhile isJsWhitespace).reverse)

/-- Expression `v && v.trim()`: nullish short-circuits to itself, `""` short-circuits to
itself, any other string is trimmed. -/
def andTrim : Option String → Option String
  | none => none
  | some s => if s = "" then some "" else some (jsTrim s)

/-- The IIFE at lines 159-169 of `submit()`: a falsy control value
short-circuits `value ? validateLoginDelaySecondsRange(value) : undefined` to
`undefined`; otherwise the external validator runs and a result carrying a
`validationError` key is thrown as an `Error`. -/
def submitRangeField (validate : String → ValidationResult)
    (value : Option String) : Except String (Option LoginDelaySecondsRange) :=
  match value with
  | none => Except.ok none
  | some s =>
    if s = "" then Except.ok none
    else
      match validate s with
      | ValidationResult.error e => Except.error e
      | ValidationResult.ok r => Except.ok (some r)

/-- The patch object literal of `submit()` (lines 139-170), given the value the
range IIFE returned: `login` comes from the loaded account when present and
from the `login` control otherwise; the proxy pair is trimmed and `{proxy}` is
spread only when one trimmed field is truthy; the checkbox values pass through
`Boolean(...)`. -/
def submitPatch (st : ComponentState)
    (loginDelaySecondsRange : Option LoginDelaySecondsRange) :
    AccountConfigCreateUpdatePatch :=
  let controls := st.controls
  let proxy : AccountProxy :=
    { proxyRules := andTrim controls.proxyRules
      proxyBypassRules := andTrim controls.proxyBypassRules }
  { login :=
      match st.account with
      | some a => some a.login
      | none => controls.login
    title := controls.title
    entryUrl := controls.entryUrl
    database := jsBool controls.database
    persistentSession := jsBool controls.persistentSession
    rotateUserAgent := jsBool controls.rotateUserAgent
    credentials :=
      { password := controls.password
        twoFactorCode := controls.twoFactorCode
        mailPassword := controls.mailPassword }
    proxy :=
      if jsTruthyStr proxy.proxyRules || jsTruthyStr proxy.proxyBypassRules
        then some proxy else none
    loginDelayUntilSelected := jsBool controls.loginDelayUntilSelected
    loginDelaySecondsRange := loginDelaySecondsRange }

/-- Method `submit()` (lines 137-177): evaluates the patch object literal — whose
range IIFE may throw, aborting before any dispatch — then dispatches
`UpdateAccountRequest` with the patch when an account is loaded and
`AddAccountRequest` otherwise. -/
def submit (validate : String → ValidationResult) (st : ComponentState) :
    Except String OptionsAction :=
  match submitRangeField validate st.controls.loginDelaySecondsRange with
  | Except.error e => Except.error e
  | Except.ok loginDelaySecondsRange =>
    Except.ok
      (match st.account with
        | some _ => OptionsAction.UpdateAccountRequest
            (submitPatch st loginDelaySecondsRange)
        | none => OptionsAction.AddAccountRequest
            (submitPatch st loginDelaySecondsRange))

/-- The actions `submit()` delivers to `store.dispatch`: exactly one on success,
none when it throws. -/
def submitDispatches (validate : String → ValidationResult) (st : ComponentState) :
    List OptionsAction :=
  match submit validate st with
  | Except.ok a => [a]
  | Except.error _ => []

/-- The patch carried by an add/update action. -/
def actionPatch : OptionsAction → Option AccountConfigCreateUpdatePatch
  | OptionsAction.AddAccountRequest p => some p
  | OptionsAction.UpdateAccountRequest p => some p
  | OptionsAction.RemoveAccountRequest _ => none

/-- The validator closure installed on the `loginDelaySecondsRange` control
(lines 51-61): a nullish or empty control value short-circuits the `value &&
validateLoginDelaySecondsRange(value)` conjunction, so no validation runs and
the control is valid (`null` returned); otherwise the external validator runs
and an `{errorMsg: validationError}` object (here `some errorMsg`) is returned
exactly when its result carries a `validationError` key. -/
def loginDelaySecondsRangeControlValidator (validate : String → ValidationResult)
    (value : Option String) : Option String :=
  match value with
  | none => none
  | some s =>
    if s = "" then none
    else
      match validate s with
      | ValidationResult.error e => some e
      | ValidationResult.ok _ => none

/-- Model of `Validators.required`: errors on a nullish or empty value. -/
def requiredValidator (value : Option String) : Option String :=
  match value with
  | none => some "required"
  | some s => if s = "" then some "required" else none

/-- Modelled from the spec: the component's template
(`account-edit.component.html`, not part of the supplied sources) blocks form
submission while the reactive form group is invalid, and the form group is
invalid when any control still attached to it reports a validation error —
`Validators.required` on `login` (while attached) and `entryUrl`, and the
custom range validator on `loginDelaySecondsRange`. -/
def formSubmissionBlocked (validate : String → ValidationResult)
    (st : ComponentState) : Bool :=
  (st.formHasLogin && (requiredValidator st.controls.login).isSome)
    || (requiredValidator st.controls.entryUrl).isSome
    || (loginDelaySecondsRangeControlValidator validate
          st.controls.loginDelaySecondsRange).isSome

/-- The `account$` subscription handler in `ngOnInit` (lines 107-133): stores
the emitted account, removes the `login` control from the form group, and
patches every other control from the account — the proxy controls from
`account.proxy` (or `null` when absent), the credential controls from
`account.credentials`, and `loginDelaySecondsRange` rendered as the string
`start-end` (or `undefined` when the account has no range). The `login`
control's value is not touched. -/
def onAccountEmission (st : ComponentState) (account : AccountConfig) :
    ComponentState :=
  { st with
    account := some account
    formHasLogin := false
    controls :=
      { st.controls with
        title := account.title
        database := account.database
        persistentSession := account.persistentSession
        rotateUserAgent := account.rotateUserAgent
        entryUrl := account.entryUrl
        proxyRules :=
          match account.proxy with
          | some p => p.proxyRules
          | none => none
        proxyBypassRules :=
          match account.proxy with
          | some p => p.proxyBypassRules
          | none => none
        password := account.credentials.password
        twoFactorCode := account.credentials.twoFactorCode
        mailPassword := account.credentials.mailPassword
        loginDelayUntilSelected := account.loginDelayUntilSelected
        loginDelaySecondsRange :=
          match account.loginDelaySecondsRange with
          | some r => some (toString r.start ++ "-" ++ toString r.«end»)
          | none => none } }

/-- The `account$` pipeline (lines 67-71) applied to one route/query parameter
emission: a falsy `login` parameter is dropped by the first `mergeMap`; a
truthy one is looked up in the store via `pickAccount`, and a `null`/missing
lookup result is dropped by the final `mergeMap`. The result is the list of
accounts the stream emits for that parameter emission. -/
def accountStreamEmissions (storeAccounts : String → Option AccountConfig)
    (paramsLogin : Option String) : List AccountConfig :=
  match paramsLogin with
  | none => []
  | some l =>
    if l = "" then []
    else
      match storeAccounts l with
      | some account => [account]
      | none => []

/-- Effect of one route/query parameter emission on the component state: each
account the stream emits is fed to the subscription handler. -/
def processParamsEmission (storeAccounts : String → Option AccountConfig)
    (paramsLogin : Option String) (st : ComponentState) : ComponentState :=
  (accountStreamEmissions storeAccounts paramsLogin).foldl onAccountEmission st

/-- Method `remove()` (lines 179-191): throws when no account is loaded; otherwise
asks `confirm` and, only on confirmation, dispatches `RemoveAccountRequest`
carrying the loaded account. The component state is returned unchanged on the
non-throwing paths (the method assigns no field). `confirmed` is the value the
blocking `confirm` dialog would return. -/
def remove (confirmed : Bool) (st : ComponentState) :
    Except String (ComponentState × List OptionsAction) :=
  match st.account with
  | none => Except.error "No \"Account\" to remove"
  | some account =>
    if confirmed then
      Except.ok (st, [OptionsAction.RemoveAccountRequest account])
    else
      Except.ok (st, [])

/-- A proxy control value counts as present for the `{proxy}` spread test
exactly when it trims to a non-empty string. -/
def trimmedNonEmpty : Option String → Bool
  | none => false
  | some s => jsTrim s ≠ ""

/-- A sample instantiation of the abstract external validator, used only to
evaluate the parametric theorems at concrete inputs: it accepts exactly the
string "1-2". -/
def sampleValidate : String → ValidationResult := fun s =>
  if s = "1-2" then ValidationResult.ok { start := 1, «end» := 2 }
  else ValidationResult.error ("Invalid \"loginDelaySecondsRange\" value: " ++ s)

/-- A concrete account with every optional piece populated. -/
def sampleAccount : AccountConfig :=
  { login := "user@proton.me"
    title := some "Work"
    database := some true
    persistentSession := some false
    rotateUserAgent := none
    entryUrl := some "https://mail.proton.me"
    proxy := some { proxyRules := some "socks5://127.0.0.1:9150"
                    proxyBypassRules := none }
    credentials := { password := some "pw"
                     twoFactorCode := none
                     mailPassword := some "mbpw" }
    loginDelayUntilSelected := some true
    loginDelaySecondsRange := some { start := 3, «end» := 5 } }

/-- A concrete account with no proxy and no login-delay range. -/
def sampleAccount2 : AccountConfig :=
  { login := "other@proton.me"
    title := none
    database := none
    persistentSession := some true
    rotateUserAgent := some true
    entryUrl := some "https://app.proton.me"
    proxy := none
    credentials := { password := none, twoFactorCode := none, mailPassword := none }
    loginDelayUntilSelected := none
    loginDelaySecondsRange := none }

/-- Component state after `sampleAccount` has been emitted on the stream. -/
def sampleLoadedState : ComponentState :=
  onAccountEmission initialComponentState sampleAccount

/-- Component state after `sampleAccount2` has been emitted on the stream. -/
def sampleLoadedState2 : ComponentState :=
  onAccountEmission initialComponentState sampleAccount2

/-- A fresh-component (create-mode) state with a few controls filled in. -/
def sampleCreateState : ComponentState :=
  { initialComponentState with
    controls :=
      { initialComponentState.controls with
        login := some "new@proton.me"
        entryUrl := some "https://mail.proton.me" } }

/-- Create-mode state whose `proxyRules` control holds the non-empty but
whitespace-only string `" "`. -/
def whitespaceProxyState : ComponentState :=
  { initialComponentState with
    controls :=
      { initialComponentState.controls with
        proxyRules := some " " } }

/-- Create-mode state whose proxy controls hold padded strings. -/
def paddedProxyState : ComponentState :=
  { initialComponentState with
    controls :=
      { initialComponentState.controls with
        proxyRules := some "  socks5://localhost:1080  "
        proxyBypassRules := some "\t\n" } }

/-- JS truthiness of `v && v.trim()` is exactly "trims to a non-empty string". -/
theorem jsTruthyStr_andTrim (v : Option String) :
    jsTruthyStr (andTrim v) = trimmedNonEmpty v := by
  cases v with
  | none => rfl
  | some s =>
    by_cases h : s = ""
    · subst h; rfl
    · simp [andTrim, h, jsTruthyStr, trimmedNonEmpty]

/-- Characterisation of a successful `submit()`: the range IIFE returned a
value and the dispatched action wraps the corresponding patch, update-style
when an account is loaded, add-style otherwise. -/
theorem submit_ok_iff (validate : String → ValidationResult)
    (st : ComponentState) (a : OptionsAction) :
    submit validate st = Except.ok a ↔
      ∃ ldsr, submitRangeField validate st.controls.loginDelaySecondsRange
          = Except.ok ldsr
        ∧ a = (match st.account with
            | some _ => OptionsAction.UpdateAccountRequest (submitPatch st ldsr)
            | none => OptionsAction.AddAccountRequest (submitPatch st ldsr)) := by
  unfold submit
  cases h : submitRangeField validate st.controls.loginDelaySecondsRange with
  | error e => simp
  | ok ldsr =>
    constructor
    · intro hok
      exact ⟨ldsr, rfl, by cases hok; rfl⟩
    · rintro ⟨ldsr2, h2, rfl⟩
      cases h2
      rfl

/-- The patch carried by a successful `submit()` is `submitPatch` applied to
the value the range IIFE returned. -/
theorem submit_ok_actionPatch (validate : String → ValidationResult)
    (st : ComponentState) (a : OptionsAction) (p : AccountConfigCreateUpdatePatch)
    (ha : submit validate st = Except.ok a) (hp : actionPatch a = some p) :
    ∃ ldsr, submitRangeField validate st.controls.loginDelaySecondsRange
        = Except.ok ldsr ∧ p = submitPatch st ldsr := by
  obtain ⟨ldsr, hr, haeq⟩ := (submit_ok_iff validate st a).mp ha
  refine ⟨ldsr, hr, ?_⟩
  subst haeq
  cases hacc : st.account <;> simp [hacc, actionPatch] at hp <;> exact hp.symm

/-- The `proxy` field of the patch literal: present with the trimmed pair
exactly when one of the two values trims to a non-empty string. -/
theorem submitPatch_proxy (st : ComponentState)
    (ldsr : Option LoginDelaySecondsRange) :
    (submitPatch st ldsr).proxy =
      (if trimmedNonEmpty st.controls.proxyRules
          || trimmedNonEmpty st.controls.proxyBypassRules
        then some { proxyRules := andTrim st.controls.proxyRules
                    proxyBypassRules := andTrim st.controls.proxyBypassRules }
        else none) := by
  rw [← jsTruthyStr_andTrim, ← jsTruthyStr_andTrim]
  rfl

/-- Predicate `wsOnly v`: the control value is nullish or consists only of characters
that `String.prototype.trim` removes (the empty string included). -/
def wsOnly : Option String → Bool
  | none => true
  | some s => s.toList.all isJsWhitespace

/-- Trimming a string made of trim-removable characters yields `""`. -/
theorem jsTrim_eq_empty_of_all_whitespace (s : String)
    (h : ∀ c ∈ s.toList, isJsWhitespace c) : jsTrim s = "" := by
  unfold jsTrim
  rw [List.dropWhile_eq_nil_iff.mpr h]
  rfl

/-- A `wsOnly` value never trims to a non-empty string. -/
theorem trimmedNonEmpty_eq_false_of_wsOnly (v : Option String)
    (h : wsOnly v = true) : trimmedNonEmpty v = false := by
  cases v with
  | none => rfl
  | some s =>
    have hall : ∀ c ∈ s.toList, isJsWhitespace c := by
      simpa [wsOnly, List.all_eq_true] using h
    simp [trimmedNonEmpty, jsTrim_eq_empty_of_all_whitespace s hall]

/-- C1: in every component state whose `loginDelaySecondsRange` control holds a
non-empty string rejected by the external validator, `submit()` throws exactly
the validation-error message and dispatches no action to the store (neither an
`AddAccountRequest` nor an `UpdateAccountRequest`). -/
theorem C1_invalid_range_submit_throws_and_dispatches_nothing
    (validate : String → ValidationResult) (st : ComponentState) (s e : String)
    (hv : st.controls.loginDelaySecondsRange = some s) (hs : s ≠ "")
    (he : validate s = ValidationResult.error e) :
    submit validate st = Except.error e
      ∧ submitDispatches validate st = [] := by
  have hr : submitRangeField validate st.controls.loginDelaySecondsRange
      = Except.error e := by
    rw [hv]; simp [submitRangeField, hs, he]
  have h1 : submit validate st = Except.error e := by
    unfold submit; rw [hr]
  exact ⟨h1, by unfold submitDispatches; rw [h1]⟩

/-- C1 witness: the loaded sample state holds the range string "3-5", which
`sampleValidate` rejects; `submit` throws and dispatches nothing. -/
theorem C1_witness :
    submit sampleValidate sampleLoadedState
        = Except.error "Invalid \"loginDelaySecondsRange\" value: 3-5"
      ∧ submitDispatches sampleValidate sampleLoadedState = [] :=
  C1_invalid_range_submit_throws_and_dispatches_nothing sampleValidate
    sampleLoadedState "3-5" "Invalid \"loginDelaySecondsRange\" value: 3-5"
    (by decide) (by decide) (by decide)

/-- C2 counterexample: the `proxyRules` control holds the non-empty string
`" "`, yet the dispatched patch omits the `proxy` key — the spread condition
tests the trimmed values, not the raw control values. -/
theorem C2_counterexample :
    jsTruthyStr whitespaceProxyState.controls.proxyRules = true
      ∧ ((submit sampleValidate whitespaceProxyState).toOption.bind
            actionPatch).map AccountConfigCreateUpdatePatch.proxy
          = some none := by decide

/-- C2 (amended): the dispatched patch omits the `proxy` key exactly when both
proxy control values trim to the empty string (or are nullish); whenever at
least one trims to a non-empty string, the patch includes a proxy object whose
two fields are the `v && v.trim()` images of the control values. -/
theorem C2_amended_proxy_trimmed_inclusion
    (validate : String → ValidationResult) (st : ComponentState)
    (a : OptionsAction) (p : AccountConfigCreateUpdatePatch)
    (ha : submit validate st = Except.ok a) (hp : actionPatch a = some p) :
    (p.proxy = none
        ↔ trimmedNonEmpty st.controls.proxyRules = false
          ∧ trimmedNonEmpty st.controls.proxyBypassRules = false)
      ∧ ((trimmedNonEmpty st.controls.proxyRules = true
          ∨ trimmedNonEmpty st.controls.proxyBypassRules = true) →
          p.proxy = some { proxyRules := andTrim st.controls.proxyRules
                           proxyBypassRules := andTrim st.controls.proxyBypassRules }) := by
  obtain ⟨ldsr, hr, hpe⟩ := submit_ok_actionPatch validate st a p ha hp
  subst hpe
  rw [submitPatch_proxy]
  cases h1 : trimmedNonEmpty st.controls.proxyRules <;>
    cases h2 : trimmedNonEmpty st.controls.proxyBypassRules <;> simp

/-- C2 witness: padded proxy values — `proxyRules` trims to a non-empty string
(so the proxy object is included, trimmed) while `proxyBypassRules` trims to
`""`. -/
theorem C2_amended_witness :
    (submitPatch paddedProxyState none).proxy
        = some { proxyRules := some "socks5://localhost:1080"
                 proxyBypassRules := some "" } :=
  ((C2_amended_proxy_trimmed_inclusion sampleValidate paddedProxyState
      (OptionsAction.AddAccountRequest (submitPatch paddedProxyState none))
      (submitPatch paddedProxyState none) rfl rfl).2
    (Or.inl (by decide))).trans (by decide)

/-- C3 counterexample: after the subscription handler processes
`sampleAccount`, the `login` control still holds its previous value (`null`),
not the account's login — the handler never patches the `login` control. -/
theorem C3_counterexample :
    sampleAccount.login = "user@proton.me"
      ∧ (onAccountEmission initialComponentState sampleAccount).controls.login
          = none
      ∧ ¬ (onAccountEmission initialComponentState
            sampleAccount).controls.login = some sampleAccount.login := by
  decide

/-- C3 (amended): after the subscription handler completes, the account is
stored, the `login` control is removed from the form group with its value left
unchanged, and every other control holds the account's corresponding field
(proxy sub-fields flattened from the optional proxy record, credentials from
the credentials record, and the login-delay range rendered as the string
`start-end`, absent when the account has none). -/
theorem C3_amended_controls_follow_account (st : ComponentState)
    (a : AccountConfig) :
    (onAccountEmission st a).account = some a
      ∧ (onAccountEmission st a).formHasLogin = false
      ∧ (onAccountEmission st a).controls.login = st.controls.login
      ∧ (onAccountEmission st a).controls.title = a.title
      ∧ (onAccountEmission st a).controls.database = a.database
      ∧ (onAccountEmission st a).controls.persistentSession
          = a.persistentSession
      ∧ (onAccountEmission st a).controls.rotateUserAgent = a.rotateUserAgent
      ∧ (onAccountEmission st a).controls.entryUrl = a.entryUrl
      ∧ (onAccountEmission st a).controls.proxyRules
          = a.proxy.bind AccountProxy.proxyRules
      ∧ (onAccountEmission st a).controls.proxyBypassRules
          = a.proxy.bind AccountProxy.proxyBypassRules
      ∧ (onAccountEmission st a).controls.password = a.credentials.password
      ∧ (onAccountEmission st a).controls.twoFactorCode
          = a.credentials.twoFactorCode
      ∧ (onAccountEmission st a).controls.mailPassword
          = a.credentials.mailPassword
      ∧ (onAccountEmission st a).controls.loginDelayUntilSelected
          = a.loginDelayUntilSelected
      ∧ (onAccountEmission st a).controls.loginDelaySecondsRange
          = a.loginDelaySecondsRange.map
              (fun r => toString r.start ++ "-" ++ toString r.«end») := by
  cases hp : a.proxy <;> cases hr : a.loginDelaySecondsRange <;>
    simp [onAccountEmission, hp, hr]

/-- C4: `remove()` throws (dispatching nothing) when no account is loaded;
with a loaded account it dispatches nothing and leaves the state unchanged
when the confirmation dialog is declined, and dispatches exactly one
`RemoveAccountRequest` carrying the loaded account when it is accepted. -/
theorem C4_remove_behaviour (st : ComponentState) (confirmed : Bool) :
    (st.account = none →
        remove confirmed st = Except.error "No \"Account\" to remove")
      ∧ (∀ acc, st.account = some acc → confirmed = false →
          remove confirmed st = Except.ok (st, []))
      ∧ (∀ acc, st.account = some acc → confirmed = true →
          remove confirmed st
            = Except.ok (st, [OptionsAction.RemoveAccountRequest acc])) := by
  refine ⟨?_, ?_, ?_⟩
  · intro h; unfold remove; rw [h]
  · intro acc h hc; unfold remove; rw [h, hc]; rfl
  · intro acc h hc; unfold remove; rw [h, hc]; rfl

/-- C4 witness: the three branches evaluated on the sample states. -/
theorem C4_witness :
    remove true initialComponentState = Except.error "No \"Account\" to remove"
      ∧ remove false sampleLoadedState = Except.ok (sampleLoadedState, [])
      ∧ remove true sampleLoadedState
          = Except.ok (sampleLoadedState,
              [OptionsAction.RemoveAccountRequest sampleAccount]) :=
  ⟨(C4_remove_behaviour initialComponentState true).1 rfl,
   (C4_remove_behaviour sampleLoadedState false).2.1 sampleAccount rfl rfl,
   (C4_remove_behaviour sampleLoadedState true).2.2 sampleAccount rfl rfl⟩

/-- C5: whenever `submit()` does not throw, the dispatched action is an
`UpdateAccountRequest` exactly when an account is loaded and an
`AddAccountRequest` exactly when none is — for every validator, state and
control configuration, so nothing else influences the variant. -/
theorem C5_action_variant_matches_loaded_account
    (validate : String → ValidationResult) (st : ComponentState)
    (a : OptionsAction) (ha : submit validate st = Except.ok a) :
    ((∃ p, a = OptionsAction.UpdateAccountRequest p)
        ↔ st.account.isSome = true)
      ∧ ((∃ p, a = OptionsAction.AddAccountRequest p)
        ↔ st.account = none) := by
  obtain ⟨ldsr, hr, haeq⟩ := (submit_ok_iff validate st a).mp ha
  subst haeq
  cases h : st.account <;> simp [h]

/-- C5 witness: create mode (no account loaded) yields an add-variant action. -/
theorem C5_witness :
    ∃ p, OptionsAction.AddAccountRequest (submitPatch sampleCreateState none)
        = OptionsAction.AddAccountRequest p :=
  (C5_action_variant_matches_loaded_account sampleValidate sampleCreateState
      (OptionsAction.AddAccountRequest (submitPatch sampleCreateState none))
      rfl).2.mpr rfl

/-- C6: a route/query parameter emission whose login has no matching account in
the store makes the `account$` stream emit nothing, and the component state
(account field and every control value) is left unchanged. -/
theorem C6_missing_account_no_emission_no_change
    (storeAccounts : String → Option AccountConfig) (l : String)
    (st : ComponentState) (h : storeAccounts l = none) :
    accountStreamEmissions storeAccounts (some l) = []
      ∧ processParamsEmission storeAccounts (some l) st = st := by
  have he : accountStreamEmissions storeAccounts (some l) = [] := by
    unfold accountStreamEmissions
    by_cases hl : l = "" <;> simp [hl, h]
  exact ⟨he, by unfold processParamsEmission; rw [he]; rfl⟩

/-- C6 witness: an empty store and a concrete login parameter. -/
theorem C6_witness :
    accountStreamEmissions (fun _ => none) (some "user@proton.me") = []
      ∧ processParamsEmission (fun _ => none) (some "user@proton.me")
          initialComponentState = initialComponentState :=
  C6_missing_account_no_emission_no_change (fun _ => none) "user@proton.me"
    initialComponentState rfl

/-- C7: for a non-empty `loginDelaySecondsRange` control value, the control's
validator reports `{errorMsg: validationError}` exactly when the external
validator rejects the value, reports no error exactly when it accepts it, and
a reported error makes the (spec-modelled) form-level submission gate block. -/
theorem C7_range_validator_tracks_external_validator
    (validate : String → ValidationResult) (st : ComponentState) (s : String)
    (hv : st.controls.loginDelaySecondsRange = some s) (hs : s ≠ "") :
    (∀ msg, loginDelaySecondsRangeControlValidator validate (some s) = some msg
        ↔ validate s = ValidationResult.error msg)
      ∧ (loginDelaySecondsRangeControlValidator validate (some s) = none
        ↔ ∃ r, validate s = ValidationResult.ok r)
      ∧ (loginDelaySecondsRangeControlValidator validate (some s) ≠ none →
          formSubmissionBlocked validate st = true) := by
  have hred : loginDelaySecondsRangeControlValidator validate (some s)
      = match validate s with
        | ValidationResult.error e => some e
        | ValidationResult.ok _ => none := by
    unfold loginDelaySecondsRangeControlValidator
    simp [hs]
  refine ⟨?_, ?_, ?_⟩
  · intro msg; rw [hred]; cases hval : validate s <;> simp
  · rw [hred]; cases hval : validate s <;> simp
  · intro hne
    have hsome : (loginDelaySecondsRangeControlValidator validate
        st.controls.loginDelaySecondsRange).isSome = true := by
      rw [hv]
      cases hc : loginDelaySecondsRangeControlValidator validate (some s) with
      | none => exact absurd hc hne
      | some m => rfl
    unfold formSubmissionBlocked
    rw [hsome]
    simp

/-- C7 witness: `sampleValidate` rejects "3-5", the control validator surfaces
its message, and the form gate blocks on the loaded sample state. -/
theorem C7_witness :
    loginDelaySecondsRangeControlValidator sampleValidate (some "3-5")
        = some "Invalid \"loginDelaySecondsRange\" value: 3-5"
      ∧ formSubmissionBlocked sampleValidate sampleLoadedState = true := by
  have h := C7_range_validator_tracks_external_validator sampleValidate
    sampleLoadedState "3-5" (by decide) (by decide)
  exact ⟨(h.1 "Invalid \"loginDelaySecondsRange\" value: 3-5").mpr rfl,
    h.2.2 (by decide)⟩

/-- C8: the dispatched patch carries the loaded account's login regardless of
the `login` control's current value; only in create mode (no account loaded)
does the patch take the `login` control's value; and every account emission —
the first one included — removes the `login` control from the form group. -/
theorem C8_patch_login_source
    (validate : String → ValidationResult) (st : ComponentState)
    (a : OptionsAction) (p : AccountConfigCreateUpdatePatch)
    (ha : submit validate st = Except.ok a) (hp : actionPatch a = some p) :
    (∀ acc, st.account = some acc → p.login = some acc.login)
      ∧ (st.account = none → p.login = st.controls.login)
      ∧ ∀ st0 acc0, (onAccountEmission st0 acc0).formHasLogin = false := by
  obtain ⟨ldsr, hr, hpe⟩ := submit_ok_actionPatch validate st a p ha hp
  subst hpe
  refine ⟨?_, ?_, fun _ _ => rfl⟩
  · intro acc h
    show (match st.account with
      | some a => some a.login
      | none => st.controls.login) = some acc.login
    rw [h]
  · intro h
    show (match st.account with
      | some a => some a.login
      | none => st.controls.login) = st.controls.login
    rw [h]

/-- C8 witness: in the loaded sample state the `login` control still holds
`null`, yet the patch carries the account's login. -/
theorem C8_witness :
    (submitPatch sampleLoadedState2 none).login = some "other@proton.me"
      ∧ sampleLoadedState2.controls.login = none := by
  have h := C8_patch_login_source sampleValidate sampleLoadedState2
    (OptionsAction.UpdateAccountRequest (submitPatch sampleLoadedState2 none))
    (submitPatch sampleLoadedState2 none) rfl rfl
  exact ⟨h.1 sampleAccount2 rfl, rfl⟩

/-- C9: with an empty (`null`/`""`) `loginDelaySecondsRange` control value,
`submit()` succeeds with the patch's range field absent, its result does not
depend on the external validator at all (it is never invoked), and the
control-level validator reports no error. -/
theorem C9_empty_range_value_skips_validation
    (validate validate2 : String → ValidationResult) (st : ComponentState)
    (h : st.controls.loginDelaySecondsRange = none
      ∨ st.controls.loginDelaySecondsRange = some "") :
    (∃ a p, submit validate st = Except.ok a ∧ actionPatch a = some p
        ∧ p.loginDelaySecondsRange = none)
      ∧ submit validate st = submit validate2 st
      ∧ loginDelaySecondsRangeControlValidator validate
          st.controls.loginDelaySecondsRange = none := by
  have hr : ∀ v : String → ValidationResult,
      submitRangeField v st.controls.loginDelaySecondsRange
        = Except.ok none := by
    intro v; rcases h with h | h <;> rw [h] <;> rfl
  refine ⟨?_, ?_, ?_⟩
  · refine ⟨(match st.account with
        | some _ => OptionsAction.UpdateAccountRequest (submitPatch st none)
        | none => OptionsAction.AddAccountRequest (submitPatch st none)),
      submitPatch st none, ?_, ?_, rfl⟩
    · unfold submit; rw [hr validate]
    · cases st.account <;> rfl
  · unfold submit; rw [hr validate, hr validate2]
  · rcases h with h | h <;> rw [h] <;> rfl

/-- C9 witness: the second loaded sample state has a `null` range control;
even an always-rejecting validator yields the same successful submission. -/
theorem C9_witness :
    (∃ a p, submit sampleValidate sampleLoadedState2 = Except.ok a
        ∧ actionPatch a = some p ∧ p.loginDelaySecondsRange = none)
      ∧ submit sampleValidate sampleLoadedState2
          = submit (fun s => ValidationResult.error s) sampleLoadedState2
      ∧ loginDelaySecondsRangeControlValidator sampleValidate
          sampleLoadedState2.controls.loginDelaySecondsRange = none :=
  C9_empty_range_value_skips_validation sampleValidate
    (fun s => ValidationResult.error s) sampleLoadedState2 (Or.inl rfl)

/-- C10: when both proxy control values are nullish or consist only of
whitespace characters, the dispatched patch omits the `proxy` key — the spread
test sees the trimmed values, so whitespace-only input behaves like empty
input. -/
theorem C10_whitespace_only_proxy_omitted
    (validate : String → ValidationResult) (st : ComponentState)
    (a : OptionsAction) (p : AccountConfigCreateUpdatePatch)
    (h1 : wsOnly st.controls.proxyRules = true)
    (h2 : wsOnly st.controls.proxyBypassRules = true)
    (ha : submit validate st = Except.ok a) (hp : actionPatch a = some p) :
    p.proxy = none := by
  obtain ⟨ldsr, hr, hpe⟩ := submit_ok_actionPatch validate st a p ha hp
  subst hpe
  rw [submitPatch_proxy, trimmedNonEmpty_eq_false_of_wsOnly _ h1,
    trimmedNonEmpty_eq_false_of_wsOnly _ h2]
  rfl

/-- C10 witness: a `" "` proxy-rules value (whitespace-only, so non-empty)
still yields a patch without the proxy key. -/
theorem C10_witness :
    (submitPatch whitespaceProxyState none).proxy = none :=
  C10_whitespace_only_proxy_omitted sampleValidate whitespaceProxyState
    (OptionsAction.AddAccountRequest (submitPatch whitespaceProxyState none))
    (submitPatch whitespaceProxyState none) (by decide) (by decide) rfl rfl
